import Mathlib

/-
Verification of the statistical calculation core of the
pre-experiment-design repository.

The core lives in src/core/calculator.py (class SampleSizeCalculator) and in
src/components/post_experiment_analysis.py (perform_analysis /
display_results).  Python floats are modelled as real numbers; the external
scipy functions stats.norm.ppf (the standard normal quantile Φ⁻¹) and
norm.cdf (the standard normal CDF Φ) are modelled as abstract function
parameters `ppf` and `cdf`, since the embedded code only ever applies them.
-/

namespace PreExperimentDesign

/-- Outcome of running a Python function that may raise ZeroDivisionError:
Python float division by zero raises rather than returning a value. -/
inductive PyOutcome (α : Type) where
  | ok : α → PyOutcome α
  | zeroDivisionError : PyOutcome α
  deriving DecidableEq

/-- SampleSizeCalculator.calculate_proportions (src/core/calculator.py,
lines 5-18).  `ppf` stands for scipy's stats.norm.ppf. -/
noncomputable def calculate_proportions (ppf : ℝ → ℝ)
    (p1 p2 alpha power : ℝ) : ℤ :=
  let z_alpha := ppf (1 - alpha / 2)
  let z_beta := ppf power
  let p_pooled := (p1 + p2) / 2
  let numerator := (z_alpha * Real.sqrt (2 * p_pooled * (1 - p_pooled)) +
      z_beta * Real.sqrt (p1 * (1 - p1) + p2 * (1 - p2))) ^ 2
  let denominator := (p1 - p2) ^ 2
  ⌈numerator / denominator⌉

/-- SampleSizeCalculator.calculate_proportions with Python division
semantics made explicit: the statement `n = numerator / denominator`
raises ZeroDivisionError when the denominator is zero (the function body
contains no guard and no error signalling of its own). -/
noncomputable def calculate_proportionsRun (ppf : ℝ → ℝ)
    (p1 p2 alpha power : ℝ) : PyOutcome ℤ :=
  let z_alpha := ppf (1 - alpha / 2)
  let z_beta := ppf power
  let p_pooled := (p1 + p2) / 2
  let numerator := (z_alpha * Real.sqrt (2 * p_pooled * (1 - p_pooled)) +
      z_beta * Real.sqrt (p1 * (1 - p1) + p2 * (1 - p2))) ^ 2
  let denominator := (p1 - p2) ^ 2
  if denominator = 0 then PyOutcome.zeroDivisionError
  else PyOutcome.ok ⌈numerator / denominator⌉

/-- SampleSizeCalculator.calculate_continuous (src/core/calculator.py,
lines 20-28). -/
noncomputable def calculate_continuous (ppf : ℝ → ℝ)
    (mean1 mean2 std alpha power : ℝ) : ℤ :=
  let z_alpha := ppf (1 - alpha / 2)
  let z_beta := ppf power
  let effect_size := |mean1 - mean2| / std
  ⌈2 * ((z_alpha + z_beta) / effect_size) ^ 2⌉

/-- SampleSizeCalculator.calculate_non_inferiority (src/core/calculator.py,
lines 30-44). -/
noncomputable def calculate_non_inferiority (ppf : ℝ → ℝ)
    (p1 delta alpha power : ℝ) : ℤ :=
  let z_alpha := ppf (1 - alpha)
  let z_beta := ppf power
  let p2 := p1 - delta
  let p_pooled := (p1 + p2) / 2
  let numerator := (z_alpha * Real.sqrt (2 * p_pooled * (1 - p_pooled)) +
      z_beta * Real.sqrt (p1 * (1 - p1) + p2 * (1 - p2))) ^ 2
  let denominator := delta ^ 2
  ⌈numerator / denominator⌉

/-- SampleSizeCalculator.estimate_runtime (src/core/calculator.py,
lines 46-51). -/
noncomputable def estimate_runtime (sample_size daily_users : ℝ) : ℤ :=
  if daily_users > 0 then ⌈sample_size / daily_users⌉ else 0

/-- Result record of the App-Rate (proportion) branch of perform_analysis
in src/components/post_experiment_analysis.py. -/
structure ProportionAnalysis where
  effect_size : ℝ
  z_stat : ℝ
  p_value : ℝ
  ci_lower : ℝ
  ci_upper : ℝ

/-- The App-Rate / Superiority branch of perform_analysis
(src/components/post_experiment_analysis.py, lines 170-199).  `cdf` and
`ppf` stand for scipy's norm.cdf and norm.ppf. -/
noncomputable def perform_analysis_proportion_superiority (cdf ppf : ℝ → ℝ)
    (control_n control_data treatment_n treatment_data alpha : ℝ) :
    ProportionAnalysis :=
  let control_rate := control_data / control_n
  let treatment_rate := treatment_data / treatment_n
  let pooled_rate := (control_data + treatment_data) /
      (control_n + treatment_n)
  let se := Real.sqrt (pooled_rate * (1 - pooled_rate) *
      (1 / control_n + 1 / treatment_n))
  let effect_size := treatment_rate - control_rate
  let z_stat := effect_size / se
  let p_value := 1 - cdf z_stat
  let ci_lower := effect_size - ppf (1 - alpha / 2) * se
  let ci_upper := effect_size + ppf (1 - alpha / 2) * se
  ⟨effect_size, z_stat, p_value, ci_lower, ci_upper⟩

/-- The recommendation strings of display_results
(src/components/post_experiment_analysis.py, lines 336-345). -/
inductive Recommendation where
  | implement : Recommendation
  | consider : Recommendation
  | dontImplement : Recommendation
  | runLonger : Recommendation
  deriving DecidableEq

/-- display_results, line 286: for superiority tests,
`meets_mde = abs(effect_size) >= mde if mde is not None else False`. -/
def meets_mde (effect_size : ℝ) : Option ℝ → Prop
  | Option.none => False
  | Option.some m => |effect_size| ≥ m

section
open Classical

/-- The superiority recommendation chain of display_results
(src/components/post_experiment_analysis.py, lines 336-345), transcribed
branch for branch, including the final `else` arm. -/
noncomputable def superiority_recommendation (p_value alpha effect_size : ℝ)
    (mde : Option ℝ) : Recommendation :=
  if p_value < alpha ∧ meets_mde effect_size mde then Recommendation.implement
  else if p_value < alpha ∧ ¬ meets_mde effect_size mde then
    Recommendation.consider
  else if p_value ≥ alpha then Recommendation.dontImplement
  else Recommendation.runLonger

end

/-- C7: estimate_runtime returns ⌈n/d⌉ when d > 0 and 0 when d ≤ 0; in
particular it returns 0 when d = 0 and 0 when n = 0 with d > 0. -/
theorem estimate_runtime_spec (n d : ℝ) :
    (0 < d → estimate_runtime n d = ⌈n / d⌉) ∧
    (d ≤ 0 → estimate_runtime n d = 0) ∧
    estimate_runtime n 0 = 0 ∧
    (0 < d → estimate_runtime 0 d = 0) := by
  refine ⟨fun h => ?_, fun h => ?_, ?_, fun h => ?_⟩
  · simp [estimate_runtime, h]
  · simp [estimate_runtime, not_lt.mpr h]
  · simp [estimate_runtime]
  · simp [estimate_runtime, h]

/-- Witness for C7: estimate_runtime at sample size 10 and 3 daily users
gives ⌈10/3⌉ = 4 days, and at 3 daily users with no required sample gives
0 days. -/
theorem estimate_runtime_spec_witness :
    estimate_runtime 10 3 = 4 ∧ estimate_runtime 0 3 = 0 := by
  have h := estimate_runtime_spec 10 3
  refine ⟨(h.1 (by norm_num)).trans ?_, (estimate_runtime_spec 0 3).2.2.2 (by norm_num)⟩
  rw [Int.ceil_eq_iff]
  constructor <;> norm_num

/-- C8: calculate_proportions is symmetric under swapping its first two
arguments, for all valid p1 ≠ p2 in (0,1) and alpha, power in (0,1). -/
theorem calculate_proportions_symm (ppf : ℝ → ℝ) (p1 p2 alpha power : ℝ)
    (hp1 : 0 < p1) (hp1u : p1 < 1) (hp2 : 0 < p2) (hp2u : p2 < 1)
    (hne : p1 ≠ p2) (ha : 0 < alpha) (hau : alpha < 1)
    (hpow : 0 < power) (hpowu : power < 1) :
    calculate_proportions ppf p1 p2 alpha power =
      calculate_proportions ppf p2 p1 alpha power := by
  show (⌈(ppf (1 - alpha / 2) *
        Real.sqrt (2 * ((p1 + p2) / 2) * (1 - (p1 + p2) / 2)) +
        ppf power * Real.sqrt (p1 * (1 - p1) + p2 * (1 - p2))) ^ 2 /
        (p1 - p2) ^ 2⌉ : ℤ) =
      ⌈(ppf (1 - alpha / 2) *
        Real.sqrt (2 * ((p2 + p1) / 2) * (1 - (p2 + p1) / 2)) +
        ppf power * Real.sqrt (p2 * (1 - p2) + p1 * (1 - p1))) ^ 2 /
        (p2 - p1) ^ 2⌉
  rw [show 2 * ((p1 + p2) / 2) * (1 - (p1 + p2) / 2) =
        2 * ((p2 + p1) / 2) * (1 - (p2 + p1) / 2) by ring,
     show p1 * (1 - p1) + p2 * (1 - p2) = p2 * (1 - p2) + p1 * (1 - p1) by
        ring,
     show (p1 - p2) ^ 2 = (p2 - p1) ^ 2 by ring]

/-- Witness for C8: the symmetry theorem instantiated at
p1 = 1/4, p2 = 1/2, alpha = 1/20, power = 4/5 with the identity in place
of the normal quantile. -/
theorem calculate_proportions_symm_witness :
    calculate_proportions (fun x => x) (1/4) (1/2) (1/20) (4/5) =
      calculate_proportions (fun x => x) (1/2) (1/4) (1/20) (4/5) :=
  calculate_proportions_symm (fun x => x) (1/4) (1/2) (1/20) (4/5)
    (by norm_num) (by norm_num) (by norm_num) (by norm_num) (by norm_num)
    (by norm_num) (by norm_num) (by norm_num) (by norm_num)

/-- C9: calculate_continuous is symmetric under swapping its two means:
the result depends only on |mean1 - mean2|. -/
theorem calculate_continuous_symm (ppf : ℝ → ℝ)
    (mean1 mean2 std alpha power : ℝ) (hstd : std ≠ 0) :
    calculate_continuous ppf mean1 mean2 std alpha power =
      calculate_continuous ppf mean2 mean1 std alpha power := by
  show (⌈2 * ((ppf (1 - alpha / 2) + ppf power) /
        (|mean1 - mean2| / std)) ^ 2⌉ : ℤ) =
      ⌈2 * ((ppf (1 - alpha / 2) + ppf power) /
        (|mean2 - mean1| / std)) ^ 2⌉
  rw [abs_sub_comm]

/-- Witness for C9: the continuous-metric symmetry theorem instantiated at
means 50 and 55, std 10, alpha 1/20, power 4/5. -/
theorem calculate_continuous_symm_witness :
    calculate_continuous (fun x => x) 50 55 10 (1/20) (4/5) =
      calculate_continuous (fun x => x) 55 50 10 (1/20) (4/5) :=
  calculate_continuous_symm (fun x => x) 50 55 10 (1/20) (4/5) (by norm_num)

/-- C1: for p1 ≠ p2 in (0,1) and alpha, power in (0,1),
calculate_proportions returns the ceiling of
(z_alpha·√(2·p̄·(1−p̄)) + z_beta·√(p1·(1−p1)+p2·(1−p2)))² / (p1−p2)²,
where z_alpha = Φ⁻¹(1 − alpha/2), z_beta = Φ⁻¹(power) and
p̄ = (p1+p2)/2. -/
theorem calculate_proportions_formula (ppf : ℝ → ℝ) (p1 p2 alpha power : ℝ)
    (hp1 : 0 < p1) (hp1u : p1 < 1) (hp2 : 0 < p2) (hp2u : p2 < 1)
    (hne : p1 ≠ p2) (ha : 0 < alpha) (hau : alpha < 1)
    (hpow : 0 < power) (hpowu : power < 1) :
    calculate_proportions ppf p1 p2 alpha power =
      ⌈(ppf (1 - alpha / 2) *
          Real.sqrt (2 * ((p1 + p2) / 2) * (1 - (p1 + p2) / 2)) +
        ppf power * Real.sqrt (p1 * (1 - p1) + p2 * (1 - p2))) ^ 2 /
        (p1 - p2) ^ 2⌉ :=
  rfl

/-- Witness for C1: the formula theorem instantiated at p1 = 1/4,
p2 = 1/2, alpha = 1/20, power = 4/5 with the identity for the quantile. -/
theorem calculate_proportions_formula_witness :
    calculate_proportions (fun x => x) (1/4) (1/2) (1/20) (4/5) =
      ⌈((fun x : ℝ => x) (1 - (1/20) / 2) *
          Real.sqrt (2 * (((1:ℝ)/4 + 1/2) / 2) * (1 - ((1:ℝ)/4 + 1/2) / 2)) +
        (fun x : ℝ => x) (4/5) *
          Real.sqrt ((1:ℝ)/4 * (1 - 1/4) + 1/2 * (1 - 1/2))) ^ 2 /
        ((1:ℝ)/4 - 1/2) ^ 2⌉ :=
  calculate_proportions_formula (fun x => x) (1/4) (1/2) (1/20) (4/5)
    (by norm_num) (by norm_num) (by norm_num) (by norm_num) (by norm_num)
    (by norm_num) (by norm_num) (by norm_num) (by norm_num)

/-- C2: calling calculate_proportions with p1 = p2 = 1/2 raises an
unhandled ZeroDivisionError under Python semantics — the function contains
no guard and signals no invalid-input error, for every quantile function
and every alpha and power. -/
theorem calculate_proportions_equal_rates_raises (ppf : ℝ → ℝ)
    (alpha power : ℝ) :
    calculate_proportionsRun ppf (1/2) (1/2) alpha power =
      PyOutcome.zeroDivisionError := by
  show (if (((1:ℝ)/2 - 1/2) ^ 2 = 0) then
      (PyOutcome.zeroDivisionError : PyOutcome ℤ)
    else PyOutcome.ok _) = PyOutcome.zeroDivisionError
  norm_num

/-- C5: for p1 in (0,1), delta > 0 and alpha, power in (0,1),
calculate_non_inferiority uses the one-sided critical value
z_alpha = Φ⁻¹(1 − alpha), sets p2 = p1 − delta and p̄ = (p1+p2)/2, and
returns ⌈(z_alpha·√(2·p̄·(1−p̄)) + z_beta·√(p1·(1−p1)+p2·(1−p2)))² /
delta²⌉ with z_beta = Φ⁻¹(power). -/
theorem calculate_non_inferiority_formula (ppf : ℝ → ℝ)
    (p1 delta alpha power : ℝ)
    (hp1 : 0 < p1) (hp1u : p1 < 1) (hd : 0 < delta)
    (ha : 0 < alpha) (hau : alpha < 1)
    (hpow : 0 < power) (hpowu : power < 1) :
    calculate_non_inferiority ppf p1 delta alpha power =
      ⌈(ppf (1 - alpha) *
          Real.sqrt (2 * ((p1 + (p1 - delta)) / 2) *
            (1 - (p1 + (p1 - delta)) / 2)) +
        ppf power * Real.sqrt (p1 * (1 - p1) +
            (p1 - delta) * (1 - (p1 - delta)))) ^ 2 / delta ^ 2⌉ :=
  rfl

/-- Witness for C5: the non-inferiority formula theorem instantiated at
p1 = 3/4, delta = 1/100, alpha = 1/20, power = 4/5 with the identity for
the quantile. -/
theorem calculate_non_inferiority_formula_witness :
    calculate_non_inferiority (fun x => x) (3/4) (1/100) (1/20) (4/5) =
      ⌈((fun x : ℝ => x) (1 - 1/20) *
          Real.sqrt (2 * (((3:ℝ)/4 + (3/4 - 1/100)) / 2) *
            (1 - ((3:ℝ)/4 + (3/4 - 1/100)) / 2)) +
        (fun x : ℝ => x) (4/5) *
          Real.sqrt ((3:ℝ)/4 * (1 - 3/4) +
            (3/4 - 1/100) * (1 - (3/4 - 1/100)))) ^ 2 / ((1:ℝ)/100) ^ 2⌉ :=
  calculate_non_inferiority_formula (fun x => x) (3/4) (1/100) (1/20) (4/5)
    (by norm_num) (by norm_num) (by norm_num) (by norm_num) (by norm_num)
    (by norm_num) (by norm_num)

/-- C3: in the proportion superiority branch with positive group sizes,
the analysis computes effect_size = s_t/n_t − s_c/n_c, pooled rate
p̄ = (s_c+s_t)/(n_c+n_t), SE = √(p̄(1−p̄)(1/n_c+1/n_t)),
z = effect_size/SE, p = 1 − Φ(z), and the two-sided confidence interval
effect_size ∓/± Φ⁻¹(1−alpha/2)·SE. -/
theorem perform_analysis_proportion_superiority_formulas (cdf ppf : ℝ → ℝ)
    (n_c s_c n_t s_t alpha : ℝ) (hc : 0 < n_c) (ht : 0 < n_t) :
    (perform_analysis_proportion_superiority cdf ppf n_c s_c n_t s_t
        alpha).effect_size = s_t / n_t - s_c / n_c ∧
    (perform_analysis_proportion_superiority cdf ppf n_c s_c n_t s_t
        alpha).z_stat = (s_t / n_t - s_c / n_c) /
      Real.sqrt ((s_c + s_t) / (n_c + n_t) *
        (1 - (s_c + s_t) / (n_c + n_t)) * (1 / n_c + 1 / n_t)) ∧
    (perform_analysis_proportion_superiority cdf ppf n_c s_c n_t s_t
        alpha).p_value = 1 - cdf ((s_t / n_t - s_c / n_c) /
      Real.sqrt ((s_c + s_t) / (n_c + n_t) *
        (1 - (s_c + s_t) / (n_c + n_t)) * (1 / n_c + 1 / n_t))) ∧
    (perform_analysis_proportion_superiority cdf ppf n_c s_c n_t s_t
        alpha).ci_lower = (s_t / n_t - s_c / n_c) -
      ppf (1 - alpha / 2) * Real.sqrt ((s_c + s_t) / (n_c + n_t) *
        (1 - (s_c + s_t) / (n_c + n_t)) * (1 / n_c + 1 / n_t)) ∧
    (perform_analysis_proportion_superiority cdf ppf n_c s_c n_t s_t
        alpha).ci_upper = (s_t / n_t - s_c / n_c) +
      ppf (1 - alpha / 2) * Real.sqrt ((s_c + s_t) / (n_c + n_t) *
        (1 - (s_c + s_t) / (n_c + n_t)) * (1 / n_c + 1 / n_t)) :=
  ⟨rfl, rfl, rfl, rfl, rfl⟩

/-- Witness for C3: the proportion-branch formula theorem instantiated at
the spec's concrete scenario n_c = n_t = 1000, s_c = 100, s_t = 110,
alpha = 1/20, with the identity for both distribution functions. -/
theorem perform_analysis_proportion_superiority_formulas_witness :
    (perform_analysis_proportion_superiority (fun x => x) (fun x => x)
        1000 100 1000 110 (1/20)).effect_size =
      (110:ℝ) / 1000 - 100 / 1000 :=
  (perform_analysis_proportion_superiority_formulas (fun x => x)
    (fun x => x) 1000 100 1000 110 (1/20) (by norm_num) (by norm_num)).1

/-- C4: the superiority recommendation is Implement exactly when p < alpha
and the MDE check holds, Consider exactly when p < alpha and the MDE check
fails, DontImplement exactly when p ≥ alpha, and the RunLonger arm is
never reached. -/
theorem superiority_recommendation_spec (p alpha e : ℝ) (mde : Option ℝ) :
    (superiority_recommendation p alpha e mde = Recommendation.implement ↔
      p < alpha ∧ meets_mde e mde) ∧
    (superiority_recommendation p alpha e mde = Recommendation.consider ↔
      p < alpha ∧ ¬ meets_mde e mde) ∧
    (superiority_recommendation p alpha e mde =
        Recommendation.dontImplement ↔ alpha ≤ p) ∧
    superiority_recommendation p alpha e mde ≠ Recommendation.runLonger := by
  unfold superiority_recommendation
  by_cases hp : p < alpha
  · by_cases hm : meets_mde e mde
    · simp [hp, hm, not_le.mpr hp]
    · simp [hp, hm, not_le.mpr hp]
  · have hge : alpha ≤ p := not_lt.mp hp
    simp [hp, hge]

/-- Witness for C4: the recommendation characterisation instantiated at
p = 1/100, alpha = 1/20, effect size 3/10, MDE 1/20: the result is
Implement. -/
theorem superiority_recommendation_spec_witness :
    superiority_recommendation (1/100) (1/20) (3/10)
      (Option.some (1/20)) = Recommendation.implement :=
  (superiority_recommendation_spec (1/100) (1/20) (3/10)
    (Option.some (1/20))).1.mpr
    ⟨by norm_num, by show |(3:ℝ)/10| ≥ 1/20; rw [abs_of_nonneg] <;> norm_num⟩

/-- C10: with no MDE supplied, the superiority MDE check is false, so the
recommendation is never Implement: a significant result yields Consider
and a non-significant one yields DontImplement. -/
theorem superiority_recommendation_no_mde (p alpha e : ℝ) :
    ¬ meets_mde e Option.none ∧
    superiority_recommendation p alpha e Option.none ≠
      Recommendation.implement ∧
    (p < alpha → superiority_recommendation p alpha e Option.none =
      Recommendation.consider) ∧
    (alpha ≤ p → superiority_recommendation p alpha e Option.none =
      Recommendation.dontImplement) := by
  refine ⟨fun h => h, ?_, fun hp => ?_, fun hge => ?_⟩
  · unfold superiority_recommendation
    by_cases hp : p < alpha
    · simp [hp, meets_mde]
    · simp [hp, meets_mde, not_lt.mp hp]
  · unfold superiority_recommendation
    simp [hp, meets_mde]
  · unfold superiority_recommendation
    simp [meets_mde, not_lt.mpr hge, hge]

/-- Witness for C10: with no MDE and a significant p-value 1/100 against
alpha = 1/20, the recommendation is Consider. -/
theorem superiority_recommendation_no_mde_witness :
    superiority_recommendation (1/100) (1/20) (3/10) Option.none =
      Recommendation.consider :=
  (superiority_recommendation_no_mde (1/100) (1/20) (3/10)).2.2.1
    (by norm_num)

/-- Interval-arithmetic evaluation of calculate_proportions at the spec's
concrete scenario p1 = 0.75, p2 = 0.762, alpha = 0.05, power = 0.8: for
any quantile function whose values at 1 − 0.05/2 = 0.975 and at 0.8 lie
in the stated enclosures of the true standard normal quantiles
(Φ⁻¹(0.975) = 1.95996398…, Φ⁻¹(0.8) = 0.84162123…), the result is
exactly 20108. -/
lemma calc_proportions_spec_scenario_value (ppf : ℝ → ℝ)
    (h1 : 1.95996 ≤ ppf (1 - 0.05 / 2)) (h2 : ppf (1 - 0.05 / 2) ≤ 1.95997)
    (h3 : 0.84162 ≤ ppf 0.8) (h4 : ppf 0.8 ≤ 0.84163) :
    calculate_proportions ppf 0.75 0.762 0.05 0.8 = 20108 := by
  show (⌈(ppf (1 - 0.05 / 2) *
      Real.sqrt (2 * ((0.75 + 0.762) / 2) * (1 - (0.75 + 0.762) / 2)) +
      ppf 0.8 * Real.sqrt (0.75 * (1 - 0.75) + 0.762 * (1 - 0.762))) ^ 2 /
      (0.75 - 0.762) ^ 2⌉ : ℤ) = 20108
  rw [show (2 * (((0.75:ℝ) + 0.762) / 2) * (1 - ((0.75:ℝ) + 0.762) / 2)) =
        0.368928 by norm_num,
      show ((0.75:ℝ) * (1 - 0.75) + 0.762 * (1 - 0.762)) = 0.368856 by
        norm_num,
      show (((0.75:ℝ) - 0.762) ^ 2) = 0.000144 by norm_num]
  have hA1 : (0.60739443 : ℝ) ≤ Real.sqrt 0.368928 := by
    rw [Real.le_sqrt (by norm_num) (by norm_num)]
    norm_num
  have hA2 : Real.sqrt 0.368928 ≤ (0.60739444 : ℝ) := by
    rw [Real.sqrt_le_left (by norm_num)]
    norm_num
  have hB1 : (0.60733516 : ℝ) ≤ Real.sqrt 0.368856 := by
    rw [Real.le_sqrt (by norm_num) (by norm_num)]
    norm_num
  have hB2 : Real.sqrt 0.368856 ≤ (0.60733517 : ℝ) := by
    rw [Real.sqrt_le_left (by norm_num)]
    norm_num
  have hlo : (1.95996 * 0.60739443 + 0.84162 * 0.60733516 : ℝ) ≤
      ppf (1 - 0.05 / 2) * Real.sqrt 0.368928 +
        ppf 0.8 * Real.sqrt 0.368856 :=
    add_le_add (mul_le_mul h1 hA1 (by norm_num) (le_trans (by norm_num) h1))
      (mul_le_mul h3 hB1 (by norm_num) (le_trans (by norm_num) h3))
  have hhi : ppf (1 - 0.05 / 2) * Real.sqrt 0.368928 +
        ppf 0.8 * Real.sqrt 0.368856 ≤
      (1.95997 * 0.60739444 + 0.84163 * 0.60733517 : ℝ) :=
    add_le_add (mul_le_mul h2 hA2 (Real.sqrt_nonneg _) (by norm_num))
      (mul_le_mul h4 hB2 (Real.sqrt_nonneg _) (by norm_num))
  have hs0 : (0:ℝ) ≤ ppf (1 - 0.05 / 2) * Real.sqrt 0.368928 +
      ppf 0.8 * Real.sqrt 0.368856 := le_trans (by norm_num) hlo
  rw [Int.ceil_eq_iff]
  constructor
  · push_cast
    rw [lt_div_iff₀ (by norm_num : (0:ℝ) < 0.000144)]
    calc ((20108:ℝ) - 1) * 0.000144
        < (1.95996 * 0.60739443 + 0.84162 * 0.60733516 : ℝ) ^ 2 := by
          norm_num
      _ ≤ _ := pow_le_pow_left₀ (by norm_num) hlo 2
  · push_cast
    rw [div_le_iff₀ (by norm_num : (0:ℝ) < 0.000144)]
    calc (ppf (1 - 0.05 / 2) * Real.sqrt 0.368928 +
          ppf 0.8 * Real.sqrt 0.368856) ^ 2
        ≤ (1.95997 * 0.60739444 + 0.84163 * 0.60733517 : ℝ) ^ 2 :=
          pow_le_pow_left₀ hs0 hhi 2
      _ ≤ 20108 * 0.000144 := by norm_num

/-- Counterexample for C6: with quantile values z_alpha = 1.959964 ≈ 1.96
and z_beta = 0.84162124 ≈ 0.8416 (as the claim prescribes),
calculate_proportions(0.75, 0.762, 0.05, 0.80) returns 20108 — not
approximately 13,497: it exceeds that by more than 6000 (about 49%). -/
theorem calculate_proportions_scenario1_counterexample :
    calculate_proportions
        (fun x => if x < (0.9:ℝ) then 0.84162124 else 1.959964)
        0.75 0.762 0.05 0.8 = 20108 ∧
      (20108 : ℤ) ≠ 13497 ∧ 6000 < (20108 : ℤ) - 13497 := by
  refine ⟨?_, by decide, by decide⟩
  apply calc_proportions_spec_scenario_value
  · show 1.95996 ≤ if ((1:ℝ) - 0.05 / 2) < 0.9 then _ else _
    rw [if_neg (by norm_num)]
    norm_num
  · show (if ((1:ℝ) - 0.05 / 2) < 0.9 then _ else _) ≤ 1.95997
    rw [if_neg (by norm_num)]
    norm_num
  · show 0.84162 ≤ if ((0.8:ℝ)) < 0.9 then _ else _
    rw [if_pos (by norm_num)]
    norm_num
  · show (if ((0.8:ℝ)) < 0.9 then _ else _) ≤ 0.84163
    rw [if_pos (by norm_num)]
    norm_num

/-- C6 (amended): calculate_proportions(0.75, 0.762, 0.05, 0.80) returns
20,108 per group, for every quantile function with
Φ⁻¹(0.975) ∈ [1.95996, 1.95997] and Φ⁻¹(0.8) ∈ [0.84162, 0.84163]
(enclosures that contain the true two-sided z_alpha ≈ 1.96 and
z_beta ≈ 0.8416). -/
theorem calculate_proportions_scenario1 (ppf : ℝ → ℝ)
    (h1 : 1.95996 ≤ ppf (1 - 0.05 / 2)) (h2 : ppf (1 - 0.05 / 2) ≤ 1.95997)
    (h3 : 0.84162 ≤ ppf 0.8) (h4 : ppf 0.8 ≤ 0.84163) :
    calculate_proportions ppf 0.75 0.762 0.05 0.8 = 20108 :=
  calc_proportions_spec_scenario_value ppf h1 h2 h3 h4

/-- Witness for the amended C6: the theorem applied to a concrete quantile
function taking the values 1.9599640 at 0.975 and 0.8416213 at 0.8. -/
theorem calculate_proportions_scenario1_witness :
    calculate_proportions
        (fun x => if x < (0.9:ℝ) then 0.8416213 else 1.9599640)
        0.75 0.762 0.05 0.8 = 20108 := by
  apply calculate_proportions_scenario1
  · show 1.95996 ≤ if ((1:ℝ) - 0.05 / 2) < 0.9 then _ else _
    rw [if_neg (by norm_num)]
    norm_num
  · show (if ((1:ℝ) - 0.05 / 2) < 0.9 then _ else _) ≤ 1.95997
    rw [if_neg (by norm_num)]
    norm_num
  · show 0.84162 ≤ if ((0.8:ℝ)) < 0.9 then _ else _
    rw [if_pos (by norm_num)]
    norm_num
  · show (if ((0.8:ℝ)) < 0.9 then _ else _) ≤ 0.84163
    rw [if_pos (by norm_num)]
    norm_num

end PreExperimentDesign
